import Mathlib

/-!
Shallow embedding of `mapchete/index.py` (tile output indexing engine):
the `VectorFileWriter` class, the `zoom_index_gen` orchestrator generator
and the path helpers `_index_file_path` and `_tile_path`.

Python dicts are modelled as insertion-ordered association lists with
unique keys, the filesystem as a list of `(path, contents)` pairs, and
the generator as an argument-capturing structure whose body is run by
explicit step functions (mirroring CPython generator semantics: the body
runs only when the first item is pulled).
-/

set_option autoImplicit false

namespace MapcheteIndex

/-- Opaque representative of a shapely geometry (`tile.bbox`). -/
abbrev Geom := String

/-- Result of `shapely.geometry.mapping`, the GeoJSON-dict form of a geometry.
The conversion is injective on our opaque representatives. -/
structure GeomMapping where
  geom : Geom
deriving DecidableEq, Repr

/-- Embedding of `shapely.geometry.mapping`. -/
def mapping (g : Geom) : GeomMapping := ⟨g⟩

/-- One tile handed to the engine by the external grid collaborator.
`id` stands for `str(tile.id)`, the canonical identifier string. -/
structure Tile where
  id : String
  zoom : Int
  row : Int
  col : Int
  bbox : Geom
deriving DecidableEq, Repr

/-- One feature record of an index artifact: geometry plus the properties
written by `VectorFileWriter.write` (`tile_id`, `zoom`, `row`, `col` and the
configurable path field, kept as a `(field name, value)` pair). -/
structure Feature where
  geometry : GeomMapping
  tile_id : String
  zoom : String
  row : String
  col : String
  locationField : String × String
deriving DecidableEq, Repr

/-! ### Python dict as insertion-ordered association list -/

/-- Keys of a dict in insertion order. -/
def dictKeys (d : List (String × Feature)) : List String := d.map Prod.fst

/-- Values of a dict in insertion order (`dict.values()`). -/
def dictValues (d : List (String × Feature)) : List Feature := d.map Prod.snd

/-- Python dict assignment `d[k] = v`: an existing key keeps its position and
gets the new value, a fresh key is appended. -/
def dictInsert (d : List (String × Feature)) (k : String) (v : Feature) :
    List (String × Feature) :=
  if (dictKeys d).contains k then
    d.map (fun kv => if kv.1 = k then (kv.1, v) else kv)
  else d ++ [(k, v)]

/-- Embedding of the dict comprehension
`{f["properties"]["tile_id"]: f for f in src}` in `VectorFileWriter.__init__`. -/
def buildDict (fs : List Feature) : List (String × Feature) :=
  fs.foldl (fun d f => dictInsert d f.tile_id f) []

/-- First feature of a record list carrying the given `tile_id`. -/
def findEntry (recs : List Feature) (tid : String) : Option Feature :=
  recs.find? (fun f => f.tile_id == tid)

/-! ### Filesystem model -/

/-- Filesystem: a list of `(path, file contents)` pairs; presence of a pair
models `os.path.isfile` returning true for that path. -/
abbrev FS := List (String × List Feature)

/-- Contents of the file at `p`, when one exists. -/
def fsLookup (fs : FS) (p : String) : Option (List Feature) :=
  (fs.find? (fun e => e.1 == p)).map Prod.snd

/-- Embedding of `os.remove`. -/
def fsRemove (fs : FS) (p : String) : FS :=
  fs.filter (fun e => e.1 != p)

/-- Creating or overwriting the file at `p` with contents `c`. -/
def fsWrite (fs : FS) (p : String) (c : List Feature) : FS :=
  fsRemove fs p ++ [(p, c)]

/-! ### Schema -/

/-- A fiona schema: geometry kind plus property name/type pairs. -/
structure FionaSchema where
  geometry : String
  properties : List (String × String)
deriving DecidableEq, Repr

/-- Embedding of the module-level `spatial_schema` dict of `index.py`. -/
def spatial_schema : FionaSchema :=
  { geometry := "Polygon"
    properties :=
      [("tile_id", "str:254"), ("zoom", "int"), ("row", "int"), ("col", "int")] }

/-- Python dict assignment on the string-typed schema property dict. -/
def strDictInsert (d : List (String × String)) (k v : String) :
    List (String × String) :=
  if (d.map Prod.fst).contains k then
    d.map (fun kv => if kv.1 = k then (kv.1, v) else kv)
  else d ++ [(k, v)]

/-! ### VectorFileWriter -/

/-- State of a `VectorFileWriter` instance. `existing` is the snapshot dict
loaded in `__init__` (read-only afterwards); `fileContents` is the sequence of
records written through `self.file_obj` so far. -/
structure VectorFileWriter where
  path : String
  driver : String
  existing : List (String × Feature)
  new_entries : Nat
  fieldname : String
  schema : FionaSchema
  fileContents : List Feature
deriving DecidableEq, Repr

namespace VectorFileWriter

/-- Body of `VectorFileWriter.__init__` after the driver check: load and delete
a pre-existing artifact, open a fresh file and re-emit the snapshot records. -/
def openValid (fs : FS) (out_path fieldname driver : String) :
    VectorFileWriter × FS :=
  let existing : List (String × Feature) :=
    match fsLookup fs out_path with
    | some feats => buildDict feats
    | none => []
  let fs1 : FS :=
    match fsLookup fs out_path with
    | some _ => fsRemove fs out_path
    | none => fs
  let schema : FionaSchema :=
    { spatial_schema with
        properties := strDictInsert spatial_schema.properties fieldname "str:254" }
  let w : VectorFileWriter :=
    { path := out_path
      driver := driver
      existing := existing
      new_entries := 0
      fieldname := fieldname
      schema := schema
      fileContents := dictValues existing }
  -- fiona.open(self.path, "w", ...) creates the file; writerecords re-emits
  -- the snapshot values into it.
  (w, fsWrite fs1 out_path (dictValues existing))

/-- Embedding of `VectorFileWriter.__init__`: raises `ValueError` for a driver
other than GeoJSON or GPKG, otherwise proceeds as `openValid`. -/
def openW (fs : FS) (out_path fieldname driver : String) :
    Except String (VectorFileWriter × FS) :=
  if ["GeoJSON", "GPKG"].contains driver then
    .ok (openValid fs out_path fieldname driver)
  else .error "only GeoJSON and GPKG are allowed"

/-- Embedding of `VectorFileWriter.entry_exists`: membership of `str(tile.id)`
in the keys of the snapshot dict `self.existing`. -/
def entry_exists (w : VectorFileWriter) (t : Tile) : Bool :=
  (dictKeys w.existing).contains t.id

/-- The record appended by `VectorFileWriter.write` for a non-duplicate tile. -/
def newRecord (fieldname : String) (t : Tile) (path : String) : Feature :=
  { geometry := mapping t.bbox
    tile_id := t.id
    zoom := toString t.zoom
    row := toString t.row
    col := toString t.col
    locationField := (fieldname, path) }

/-- Embedding of `VectorFileWriter.write`: a no-op when `entry_exists`,
otherwise append the new record and bump `new_entries`. -/
def write (w : VectorFileWriter) (t : Tile) (path : String) : VectorFileWriter :=
  if w.entry_exists t then w
  else
    { w with
        fileContents := w.fileContents ++ [newRecord w.fieldname t path]
        new_entries := w.new_entries + 1 }

/-- Embedding of `VectorFileWriter.close`: flush the records written through
the file object to the file at `self.path`. -/
def close (w : VectorFileWriter) (fs : FS) : FS :=
  fsWrite fs w.path w.fileContents

end VectorFileWriter

/-! ### Path helpers -/

/-- Embedding of Python `str.startswith`. -/
def strStartsWith (s p : String) : Bool :=
  p.toList.isPrefixOf s.toList

/-- Embedding of Python `str.endswith`. -/
def strEndsWith (s p : String) : Bool :=
  p.toList.isSuffixOf s.toList

/-- Embedding of Python `str.split("/")`: split on every slash, keeping empty
pieces. -/
def splitSlash (s : String) : List String :=
  let r := s.toList.foldl
    (fun (acc : List String × String) c =>
      if c = '/' then (acc.1 ++ [acc.2], "") else (acc.1, acc.2.push c))
    ([], "")
  r.1 ++ [r.2]

/-- Posix `os.path.join` for two components, as used by the code. -/
def osPathJoin (a b : String) : String :=
  if strStartsWith b "/" then b
  else if a = "" ∨ strEndsWith a "/" then a ++ b
  else a ++ "/" ++ b

/-- Modelled from the spec: `path_is_remote` lives in `mapchete.io`, which is
not part of the sources here; the spec describes it as deciding whether a path
"addresses a remote (network-accessible) location". We model this as the path
starting with a network protocol scheme. -/
def path_is_remote (path : String) : Bool :=
  ["http://", "https://", "s3://"].any (fun p => strStartsWith path p)

/-- Python list slice `l[-3:]`: the last up-to-three elements. -/
def pyLastThree (l : List String) : List String :=
  l.drop (l.length - 3)

/-- Embedding of `_index_file_path`. -/
def _index_file_path (out_dir : String) (zoom : Int) (ext : String) : String :=
  osPathJoin out_dir (toString zoom ++ "." ++ ext)

/-- Embedding of `_tile_path`: optional base path override keeping the last
three slash-separated segments, then the `/vsicurl/` marker for remote paths
when `for_gdal` is set. -/
def _tile_path (orig_path : String) (basepath : Option String) (for_gdal : Bool) :
    String :=
  let path : String :=
    match basepath with
    | some bp => osPathJoin bp (String.intercalate "/" (pyLastThree (splitSlash orig_path)))
    | none => orig_path
  if for_gdal && path_is_remote path then "/vsicurl/" ++ path else path

/-! ### Orchestrator: zoom_index_gen -/

/-- The slice of the Mapchete object `mp` that the generator consumes:
tile enumeration (`output_pyramid.tiles_from_geom` over `area_at_zoom(zoom)`),
the output accessor existence check (`output.tiles_exist`) and the canonical
path lookup (`output.get_path`). -/
structure MpConfig where
  tiles : List Tile
  outputExists : Tile → Bool
  getPath : Tile → String

/-- Arguments of `zoom_index_gen`. -/
structure GenArgs where
  mp : MpConfig
  out_dir : String
  zoom : Int
  geojson : Bool
  gpkg : Bool
  txt : Bool
  vrt : Bool
  fieldname : String
  basepath : Option String
  for_gdal : Bool

/-- Errors raised by the generator body before the loop. -/
inductive GenError
  | valueError (msg : String)
  | notImplementedError (msg : String)
deriving DecidableEq, Repr

/-- Calling a Python generator function only captures its arguments; the body
does not run. `Generator` is that suspended state. -/
structure Generator where
  args : GenArgs

/-- Embedding of calling `zoom_index_gen(...)`: no validation, no file access,
no error — the body is deferred. -/
def zoom_index_gen (args : GenArgs) : Generator := ⟨args⟩

/-- Body of the generator up to the tile loop, run when the first item is
pulled: the format-flag validation, the `vrt` rejection, and the opening of
one writer per requested structured format (GeoJSON first, then GPKG).
On error the filesystem is returned untouched. -/
def genOpenWriters (args : GenArgs) (fs : FS) :
    Except GenError (List VectorFileWriter) × FS :=
  if !(args.geojson || args.gpkg || args.vrt) then
    (.error (.valueError "one of geojson, gpkg or vrt must be provided"), fs)
  else if args.vrt then
    (.error (.notImplementedError "writing VRTs is not yet enabled"), fs)
  else
    let s1 : List VectorFileWriter × FS :=
      if args.geojson then
        let r := VectorFileWriter.openValid fs
          (_index_file_path args.out_dir args.zoom "geojson") args.fieldname "GeoJSON"
        ([r.1], r.2)
      else ([], fs)
    let s2 : List VectorFileWriter × FS :=
      if args.gpkg then
        let r := VectorFileWriter.openValid s1.2
          (_index_file_path args.out_dir args.zoom "gpkg") args.fieldname "GPKG"
        (s1.1 ++ [r.1], r.2)
      else s1
    (.ok s2.1, s2.2)

/-- Running the generator body up to the loop, from the suspended state. -/
def Generator.start (g : Generator) (fs : FS) :
    Except GenError (List VectorFileWriter) × FS :=
  genOpenWriters g.args fs

/-- How the consumer drives the lazy sequence: to exhaustion, or abandoning it
after `n` pulled items (which raises GeneratorExit at the suspended yield). -/
inductive ConsumerMode
  | full
  | stopAfter (n : Nat)
deriving DecidableEq, Repr

/-- Fault injection for the loop body: `failAt n msg` models an exception
raised while processing the tile with 0-based position `n`, before any write
for that tile happens. -/
inductive Fault
  | noFault
  | failAt (n : Nat) (msg : String)
deriving DecidableEq, Repr

/-- True when the consumer abandons the sequence before pulling item `idx`. -/
def consumerStops (mode : ConsumerMode) (idx : Nat) : Bool :=
  match mode with
  | .full => false
  | .stopAfter n => decide (n ≤ idx)

/-- True when the injected fault fires at position `idx`. -/
def faultHits (fault : Fault) (idx : Nat) : Bool :=
  match fault with
  | .noFault => false
  | .failAt n _ => decide (idx = n)

/-- Message of the injected fault. -/
def faultMsg (fault : Fault) : String :=
  match fault with
  | .noFault => ""
  | .failAt _ m => m

/-- Result of the tile loop: tiles yielded to the caller, the `(tile, path)`
pairs offered to every writer, the updated writers, and the in-flight
exception, if any. -/
structure LoopResult where
  yielded : List Tile
  offers : List (Tile × String)
  writers : List VectorFileWriter
  iterErr : Option String
deriving Repr

/-- The tile loop of `zoom_index_gen`: per tile, resolve the path, check
existence, offer the pair to every writer when the output exists, then yield
the tile; the loop is cut short by consumer abandonment or an injected
exception. -/
def runLoop (args : GenArgs) (mode : ConsumerMode) (fault : Fault) :
    Nat → List VectorFileWriter → List Tile → LoopResult
  | _, writers, [] => ⟨[], [], writers, none⟩
  | idx, writers, t :: rest =>
    if consumerStops mode idx then ⟨[], [], writers, none⟩
    else if faultHits fault idx then ⟨[], [], writers, some (faultMsg fault)⟩
    else
      let tile_path := _tile_path (args.mp.getPath t) args.basepath args.for_gdal
      let step : List (Tile × String) × List VectorFileWriter :=
        if args.mp.outputExists t then
          ([(t, tile_path)], writers.map (fun w => w.write t tile_path))
        else ([], writers)
      let r := runLoop args mode fault (idx + 1) step.2 rest
      ⟨t :: r.yielded, step.1 ++ r.offers, r.writers, r.iterErr⟩

/-- The `finally` block: one close attempt per writer, in order; a failing
close (modelled by `closeFails` on the writer position) is caught and logged
and does not flush that writer, while the remaining writers are still closed.
Returns the filesystem, the per-writer close-attempt counts and the number of
logged close failures. -/
def closeAllWriters (closeFails : Nat → Bool) :
    Nat → FS → List VectorFileWriter → FS × List Nat × Nat
  | _, fs, [] => (fs, [], 0)
  | idx, fs, w :: rest =>
    let fs1 : FS := if closeFails idx then fs else w.close fs
    let logged : Nat := if closeFails idx then 1 else 0
    let r := closeAllWriters closeFails (idx + 1) fs1 rest
    (r.1, 1 :: r.2.1, logged + r.2.2)

/-- Terminal status of one driven run of the generator. -/
inductive RunOutcome
  | completed
  | startError (e : GenError)
  | iterationError (msg : String)
deriving DecidableEq, Repr

/-- Observables of one driven run of the generator. -/
structure RunResult where
  yielded : List Tile
  offers : List (Tile × String)
  outcome : RunOutcome
  closeAttempts : List Nat
  closeFailuresLogged : Nat
  finalWriters : List VectorFileWriter
  fs : FS
deriving Repr

/-- One complete driven run of `zoom_index_gen`: call the generator, pull
items under `mode` with fault injection `fault`, and run the `finally` block
on every exit path of the loop. A start error escapes before the `try`, so no
writer exists and no close is attempted. -/
def zoom_index_run (args : GenArgs) (fs : FS) (mode : ConsumerMode)
    (fault : Fault) (closeFails : Nat → Bool) : RunResult :=
  match (zoom_index_gen args).start fs with
  | (.error e, fs1) =>
    { yielded := [], offers := [], outcome := .startError e, closeAttempts := []
      closeFailuresLogged := 0, finalWriters := [], fs := fs1 }
  | (.ok ws, fs1) =>
    let r := runLoop args mode fault 0 ws args.mp.tiles
    let c := closeAllWriters closeFails 0 fs1 r.writers
    { yielded := r.yielded
      offers := r.offers
      outcome := match r.iterErr with
        | some m => .iterationError m
        | none => .completed
      closeAttempts := c.2.1
      closeFailuresLogged := c.2.2
      finalWriters := r.writers
      fs := c.1 }

/-! ### Helper lemmas -/

theorem write_of_entry_exists (w : VectorFileWriter) (t : Tile) (p : String)
    (h : w.entry_exists t = true) : w.write t p = w := by
  unfold VectorFileWriter.write
  simp [h]

theorem write_of_not_entry_exists (w : VectorFileWriter) (t : Tile) (p : String)
    (h : w.entry_exists t = false) :
    w.write t p =
      { w with
          fileContents := w.fileContents ++ [VectorFileWriter.newRecord w.fieldname t p]
          new_entries := w.new_entries + 1 } := by
  unfold VectorFileWriter.write
  simp [h]

theorem write_existing (w : VectorFileWriter) (t : Tile) (p : String) :
    (w.write t p).existing = w.existing := by
  unfold VectorFileWriter.write
  split <;> rfl

theorem write_fieldname (w : VectorFileWriter) (t : Tile) (p : String) :
    (w.write t p).fieldname = w.fieldname := by
  unfold VectorFileWriter.write
  split <;> rfl

theorem entry_exists_iff (w : VectorFileWriter) (t : Tile) :
    w.entry_exists t = true ↔ t.id ∈ dictKeys w.existing := by
  unfold VectorFileWriter.entry_exists
  exact List.elem_iff

theorem entry_exists_write (w : VectorFileWriter) (t t2 : Tile) (p : String) :
    (w.write t2 p).entry_exists t = w.entry_exists t := by
  unfold VectorFileWriter.entry_exists
  rw [write_existing]

theorem genOpenWriters_no_format (args : GenArgs) (fs : FS)
    (hg : args.geojson = false) (hp : args.gpkg = false) (hv : args.vrt = false) :
    genOpenWriters args fs =
      (.error (.valueError "one of geojson, gpkg or vrt must be provided"), fs) := by
  unfold genOpenWriters
  simp [hg, hp, hv]

theorem genOpenWriters_vrt (args : GenArgs) (fs : FS) (hv : args.vrt = true) :
    genOpenWriters args fs =
      (.error (.notImplementedError "writing VRTs is not yet enabled"), fs) := by
  unfold genOpenWriters
  simp [hv]

theorem pyLastThree_append (pre : List String) (z r last : String) :
    pyLastThree (pre ++ [z, r, last]) = [z, r, last] := by
  unfold pyLastThree
  have hlen : (pre ++ [z, r, last]).length = pre.length + 3 := by simp
  rw [hlen, Nat.add_sub_cancel]
  exact List.drop_left pre [z, r, last]

theorem runLoop_writers_length (args : GenArgs) (mode : ConsumerMode) (fault : Fault) :
    ∀ (ts : List Tile) (idx : Nat) (ws : List VectorFileWriter),
      (runLoop args mode fault idx ws ts).writers.length = ws.length := by
  intro ts
  induction ts with
  | nil => intro idx ws; rfl
  | cons t rest ih =>
    intro idx ws
    rw [runLoop]
    by_cases h1 : consumerStops mode idx = true
    · simp [h1]
    · by_cases h2 : faultHits fault idx = true
      · simp [h1, h2]
      · simp only [h1, h2, Bool.false_eq_true, if_false]
        by_cases h3 : args.mp.outputExists t = true
        · simp [h3, ih]
        · simp [h3, ih]

theorem closeAll_attempts (cf : Nat → Bool) :
    ∀ (ws : List VectorFileWriter) (idx : Nat) (fs : FS),
      (closeAllWriters cf idx fs ws).2.1 = List.replicate ws.length 1 := by
  intro ws
  induction ws with
  | nil => intro idx fs; rfl
  | cons w rest ih =>
    intro idx fs
    rw [closeAllWriters]
    simp [ih, List.replicate_succ]

theorem countP_range_succ (q : Nat → Bool) (n : Nat) :
    (List.range (n + 1)).countP q =
      (if q 0 then 1 else 0) + (List.range n).countP (fun i => q (i + 1)) := by
  rw [List.range_succ_eq_map, List.countP_cons, List.countP_map]
  have hc : (List.range n).countP (q ∘ Nat.succ) =
      (List.range n).countP (fun i => q (i + 1)) := by
    apply List.countP_congr
    intro a _
    simp [Function.comp, Nat.succ_eq_add_one]
  rw [hc]
  omega

theorem closeAll_logged (cf : Nat → Bool) :
    ∀ (ws : List VectorFileWriter) (idx : Nat) (fs : FS),
      (closeAllWriters cf idx fs ws).2.2 =
        (List.range ws.length).countP (fun i => cf (idx + i)) := by
  intro ws
  induction ws with
  | nil => intro idx fs; rfl
  | cons w rest ih =>
    intro idx fs
    rw [closeAllWriters]
    simp only [ih, List.length_cons]
    rw [countP_range_succ (fun i => cf (idx + i)) rest.length]
    have hc : (List.range rest.length).countP (fun i => cf (idx + (i + 1))) =
        (List.range rest.length).countP (fun i => cf (idx + 1 + i)) := by
      apply List.countP_congr
      intro a _
      have h : idx + (a + 1) = idx + 1 + a := by omega
      rw [h]
    simp only [Nat.add_zero] at *
    rw [hc]

theorem foldl_dictInsert_fresh (feats : List Feature) :
    ∀ acc : List (String × Feature),
      (∀ f ∈ feats, f.tile_id ∉ dictKeys acc) →
      (feats.map Feature.tile_id).Nodup →
      feats.foldl (fun d f => dictInsert d f.tile_id f) acc =
        acc ++ feats.map (fun f => (f.tile_id, f)) := by
  induction feats with
  | nil => intro acc _ _; simp
  | cons f rest ih =>
    intro acc hdisj hnodup
    simp only [List.foldl_cons]
    have hnotmem : f.tile_id ∉ dictKeys acc := hdisj f (List.mem_cons_self f rest)
    have hnot : ¬ (dictKeys acc).contains f.tile_id = true := by
      rw [List.elem_iff]; exact hnotmem
    rw [dictInsert, if_neg hnot]
    have hhead : f.tile_id ∉ rest.map Feature.tile_id :=
      (List.nodup_cons.mp (by simpa using hnodup)).1
    rw [ih (acc ++ [(f.tile_id, f)]) ?_ ?_]
    · simp
    · intro g hg
      simp only [dictKeys, List.map_append, List.mem_append, List.map_cons,
        List.map_nil, List.mem_singleton, not_or]
      refine ⟨hdisj g (List.mem_cons_of_mem f hg), ?_⟩
      intro he
      exact hhead (he ▸ List.mem_map_of_mem Feature.tile_id hg)
    · exact (List.nodup_cons.mp (by simpa using hnodup)).2

theorem buildDict_eq_of_nodup (feats : List Feature)
    (h : (feats.map Feature.tile_id).Nodup) :
    buildDict feats = feats.map (fun f => (f.tile_id, f)) := by
  unfold buildDict
  rw [foldl_dictInsert_fresh feats [] (by simp [dictKeys]) h]
  simp

theorem dictKeys_buildDict_of_nodup (feats : List Feature)
    (h : (feats.map Feature.tile_id).Nodup) :
    dictKeys (buildDict feats) = feats.map Feature.tile_id := by
  rw [buildDict_eq_of_nodup feats h]
  simp [dictKeys]

theorem dictValues_buildDict_of_nodup (feats : List Feature)
    (h : (feats.map Feature.tile_id).Nodup) :
    dictValues (buildDict feats) = feats := by
  rw [buildDict_eq_of_nodup feats h]
  unfold dictValues
  rw [List.map_map,
    show (Prod.snd ∘ fun f : Feature => (f.tile_id, f)) = id from funext fun _ => rfl,
    List.map_id]

theorem findEntry_of_nodup (feats : List Feature) (f : Feature)
    (hnodup : (feats.map Feature.tile_id).Nodup) (hf : f ∈ feats) :
    findEntry feats f.tile_id = some f := by
  induction feats with
  | nil => cases hf
  | cons g rest ih =>
    rcases List.mem_cons.mp hf with he | hmem
    · subst he
      unfold findEntry
      simp [List.find?]
    · have hhead : g.tile_id ∉ rest.map Feature.tile_id :=
        (List.nodup_cons.mp (by simpa using hnodup)).1
      have hne : (g.tile_id == f.tile_id) = false := by
        rw [beq_eq_false_iff_ne]
        intro he
        exact hhead (he ▸ List.mem_map_of_mem Feature.tile_id hmem)
      unfold findEntry at *
      rw [List.find?_cons, hne]
      exact ih (List.nodup_cons.mp (by simpa using hnodup)).2 hmem

theorem openValid_of_file (fs : FS) (p fname d : String) (feats : List Feature)
    (hfile : fsLookup fs p = some feats) :
    VectorFileWriter.openValid fs p fname d =
      ({ path := p
         driver := d
         existing := buildDict feats
         new_entries := 0
         fieldname := fname
         schema := { spatial_schema with
           properties := strDictInsert spatial_schema.properties fname "str:254" }
         fileContents := dictValues (buildDict feats) },
       fsWrite (fsRemove fs p) p (dictValues (buildDict feats))) := by
  unfold VectorFileWriter.openValid
  rw [hfile]

theorem openW_geojson (fs : FS) (p fname : String) :
    VectorFileWriter.openW fs p fname "GeoJSON" =
      .ok (VectorFileWriter.openValid fs p fname "GeoJSON") := rfl

theorem openW_gpkg (fs : FS) (p fname : String) :
    VectorFileWriter.openW fs p fname "GPKG" =
      .ok (VectorFileWriter.openValid fs p fname "GPKG") := rfl

theorem foldl_write_fresh (pathfn : Tile → String) :
    ∀ (ts : List Tile) (w : VectorFileWriter),
      (∀ t ∈ ts, w.entry_exists t = false) →
      ts.foldl (fun w t => w.write t (pathfn t)) w =
        { w with
            fileContents := w.fileContents ++
              ts.map (fun t => VectorFileWriter.newRecord w.fieldname t (pathfn t))
            new_entries := w.new_entries + ts.length } := by
  intro ts
  induction ts with
  | nil =>
    intro w _
    cases w
    simp
  | cons t rest ih =>
    intro w hfresh
    simp only [List.foldl_cons]
    rw [write_of_not_entry_exists w t (pathfn t) (hfresh t (List.mem_cons_self t rest))]
    rw [ih
      { w with
          fileContents := w.fileContents ++ [VectorFileWriter.newRecord w.fieldname t (pathfn t)]
          new_entries := w.new_entries + 1 }
      (fun t2 ht2 => hfresh t2 (List.mem_cons_of_mem t ht2))]
    cases w
    simp [VectorFileWriter.mk.injEq, List.append_assoc]
    omega

theorem foldl_write_noop (pathfn : Tile → String) :
    ∀ (ts : List Tile) (w : VectorFileWriter),
      (∀ t ∈ ts, w.entry_exists t = true) →
      ts.foldl (fun w t => w.write t (pathfn t)) w = w := by
  intro ts
  induction ts with
  | nil => intro w _; rfl
  | cons t rest ih =>
    intro w hall
    simp only [List.foldl_cons]
    rw [write_of_entry_exists w t (pathfn t) (hall t (List.mem_cons_self t rest))]
    exact ih w (fun t2 ht2 => hall t2 (List.mem_cons_of_mem t ht2))

theorem fsLookup_fsWrite (fs : FS) (p : String) (c : List Feature) :
    fsLookup (fsWrite fs p c) p = some c := by
  unfold fsLookup fsWrite fsRemove
  rw [List.find?_append]
  have h1 : (fs.filter (fun e => e.1 != p)).find? (fun e => e.1 == p) = none := by
    apply List.find?_eq_none.mpr
    intro x hx
    have hne := (List.mem_filter.mp hx).2
    simp only [bne_iff_ne, ne_eq] at hne
    simp [hne]
  rw [h1]
  simp [List.find?]

theorem runLoop_full_spec (args : GenArgs) :
    ∀ (ts : List Tile) (idx : Nat) (ws : List VectorFileWriter),
      (runLoop args .full .noFault idx ws ts).yielded = ts ∧
      (runLoop args .full .noFault idx ws ts).offers =
        (ts.filter args.mp.outputExists).map
          (fun t => (t, _tile_path (args.mp.getPath t) args.basepath args.for_gdal)) ∧
      (runLoop args .full .noFault idx ws ts).writers =
        ws.map (fun w =>
          ((ts.filter args.mp.outputExists).map
            (fun t => (t, _tile_path (args.mp.getPath t) args.basepath args.for_gdal))).foldl
            (fun w pr => w.write pr.1 pr.2) w) ∧
      (runLoop args .full .noFault idx ws ts).iterErr = none := by
  intro ts
  induction ts with
  | nil =>
    intro idx ws
    refine ⟨rfl, rfl, ?_, rfl⟩
    simp [runLoop]
  | cons t rest ih =>
    intro idx ws
    rw [runLoop]
    simp only [consumerStops, faultHits, Bool.false_eq_true, if_false]
    by_cases hex : args.mp.outputExists t = true
    · have ihr := ih (idx + 1) (ws.map (fun w =>
        w.write t (_tile_path (args.mp.getPath t) args.basepath args.for_gdal)))
      simp only [hex, if_true]
      refine ⟨?_, ?_, ?_, ?_⟩
      · simp [ihr.1]
      · simp [ihr.2.1, hex, List.filter_cons_of_pos]
      · rw [ihr.2.2.1]
        simp only [List.map_map, List.filter_cons_of_pos hex, List.map_cons,
          List.foldl_cons]
        rfl
      · exact ihr.2.2.2
    · have ihr := ih (idx + 1) ws
      have hexf : args.mp.outputExists t = false := by
        cases hxx : args.mp.outputExists t
        · rfl
        · exact absurd hxx hex
      simp only [hexf, Bool.false_eq_true, if_false]
      refine ⟨?_, ?_, ?_, ?_⟩
      · simp [ihr.1]
      · simp [ihr.2.1, List.filter_cons_of_neg, hexf]
      · rw [ihr.2.2.1]
        rw [List.filter_cons_of_neg (by simp [hexf])]
      · exact ihr.2.2.2

/-! ### Concrete fixtures for witnesses and counterexamples -/

/-- A concrete tile. -/
def tileA : Tile := ⟨"(5, 3, 7)", 5, 3, 7, "POLYGON A"⟩

/-- A second concrete tile with a distinct id. -/
def tileB : Tile := ⟨"(5, 3, 8)", 5, 3, 8, "POLYGON B"⟩

/-- A pre-existing artifact record for `tileA` with an old path. -/
def featA : Feature :=
  ⟨⟨"POLYGON A"⟩, "(5, 3, 7)", "5", "3", "7", ("location", "old/5/3/7.tif")⟩

/-- Filesystem holding a pre-existing artifact containing `featA`. -/
def fsPre : FS := [("out/5.geojson", [featA])]

/-- Writer freshly opened on an empty filesystem. -/
def wEmpty : VectorFileWriter :=
  (VectorFileWriter.openValid [] "out/5.geojson" "location" "GeoJSON").1

/-- Writer opened over the pre-existing artifact `fsPre`. -/
def wPre : VectorFileWriter :=
  (VectorFileWriter.openValid fsPre "out/5.geojson" "location" "GeoJSON").1

/-- The writer of `wEmpty` after one fresh write of `tileA` in the same run. -/
def wDupRun : VectorFileWriter := wEmpty.write tileA "p/5/3/7.tif"

/-! ### Claims -/

/-- C1, counterexample. The claim states that a write for a tile_id already in
the artifact is a no-op even when that id was appended earlier in the same run
(not loaded from the snapshot). The code only consults the snapshot dict
`self.existing`, so a repeated write of a fresh tile appends a second record:
after one write of `tileA` its id is in the artifact, yet writing `tileA`
again grows the artifact from 1 to 2 entries. -/
theorem C1_counterexample :
    (wDupRun.fileContents.map Feature.tile_id).contains tileA.id = true ∧
    wDupRun.fileContents.length = 1 ∧
    (wDupRun.write tileA "p/5/3/7.tif").fileContents.length = 2 := by
  decide

/-- C1 (amended): within one index artifact, duplicate suppression applies to
the tile_ids loaded into the snapshot at writer construction: for every tile
whose tile_id is a key of the snapshot, a call to `VectorFileWriter.write` is
a no-op and the entry count is unaffected; tile_ids first appended during the
same run are not checked. -/
theorem C1_snapshot_write_noop (w : VectorFileWriter) (t : Tile) (p : String)
    (h : w.entry_exists t = true) : w.write t p = w :=
  write_of_entry_exists w t p h

/-- C1, witness: `wPre` was opened over an artifact containing `tileA`, and
writing `tileA` again leaves it unchanged. -/
theorem C1_snapshot_write_noop_witness :
    wPre.entry_exists tileA = true ∧ wPre.write tileA "new/5/3/7.tif" = wPre :=
  ⟨by decide, C1_snapshot_write_noop wPre tileA "new/5/3/7.tif" (by decide)⟩

/-- C3: first-write-wins. For a writer opened over a pre-existing artifact
whose records carry pairwise-distinct tile_ids, a `write` for a tile whose id
is among them changes nothing, and the entry stored under that id — the whole
record, path field and geometry included — is exactly the pre-existing record,
whatever path argument the write received. -/
theorem C3_first_write_wins (fs : FS) (out_path fname : String)
    (feats : List Feature) (t : Tile) (p : String) (w : VectorFileWriter)
    (fs1 : FS) (f : Feature)
    (hfile : fsLookup fs out_path = some feats)
    (hnodup : (feats.map Feature.tile_id).Nodup)
    (hopen : VectorFileWriter.openW fs out_path fname "GeoJSON" = .ok (w, fs1))
    (hf : f ∈ feats) (hid : f.tile_id = t.id) :
    w.write t p = w ∧
    findEntry (w.write t p).fileContents t.id = some f := by
  rw [openW_geojson, openValid_of_file fs out_path fname "GeoJSON" feats hfile]
    at hopen
  have hpair := Except.ok.inj hopen
  injection hpair with hw hfs1
  subst hw
  have hkeys := dictKeys_buildDict_of_nodup feats hnodup
  have hex : VectorFileWriter.entry_exists
      { path := out_path
        driver := "GeoJSON"
        existing := buildDict feats
        new_entries := 0
        fieldname := fname
        schema := { spatial_schema with
          properties := strDictInsert spatial_schema.properties fname "str:254" }
        fileContents := dictValues (buildDict feats) } t = true := by
    rw [entry_exists_iff]
    simp only [hkeys]
    exact hid ▸ List.mem_map_of_mem Feature.tile_id hf
  rw [write_of_entry_exists _ t p hex]
  refine ⟨rfl, ?_⟩
  have hfc := dictValues_buildDict_of_nodup feats hnodup
  simp only [hfc]
  exact hid ▸ findEntry_of_nodup feats f hnodup hf

/-- C3, witness: `wPre` holds the old record for `tileA`; a write with a new
path is a no-op and the stored entry is still `featA` with the old path. -/
theorem C3_first_write_wins_witness :
    wPre.write tileA "new/5/3/7.tif" = wPre ∧
    findEntry (wPre.write tileA "new/5/3/7.tif").fileContents tileA.id =
      some featA :=
  C3_first_write_wins fsPre "out/5.geojson" "location" [featA] tileA
    "new/5/3/7.tif" wPre [("out/5.geojson", [featA])] featA rfl (by decide)
    rfl (by decide) rfl

/-- C4: merge arithmetic and idempotence. Over an artifact holding N
pre-existing records with pairwise-distinct tile_ids, writing M tiles with
pairwise-distinct ids disjoint from the existing ones yields exactly the N
prior records re-emitted unchanged followed by the M new ones — N+M entries;
and a second run over the unchanged output (open over the closed artifact,
write the same tiles) has the same entry count and the same tile_ids. -/
theorem C4_merge_idempotence (fs : FS) (out_path fname : String)
    (pre : List Feature) (ts : List Tile) (pathfn : Tile → String)
    (w w2 : VectorFileWriter) (fs1 fs3 : FS)
    (hfile : fsLookup fs out_path = some pre)
    (hpre : (pre.map Feature.tile_id).Nodup)
    (hts : (ts.map Tile.id).Nodup)
    (hdisj : ∀ t ∈ ts, t.id ∉ pre.map Feature.tile_id)
    (hopen : VectorFileWriter.openW fs out_path fname "GPKG" = .ok (w, fs1))
    (hopen2 : VectorFileWriter.openW
        ((ts.foldl (fun w t => w.write t (pathfn t)) w).close fs1)
        out_path fname "GPKG" = .ok (w2, fs3)) :
    (ts.foldl (fun w t => w.write t (pathfn t)) w).fileContents =
      pre ++ ts.map (fun t => VectorFileWriter.newRecord fname t (pathfn t)) ∧
    (ts.foldl (fun w t => w.write t (pathfn t)) w).fileContents.length =
      pre.length + ts.length ∧
    (ts.foldl (fun w t => w.write t (pathfn t)) w2).fileContents.length =
      (ts.foldl (fun w t => w.write t (pathfn t)) w).fileContents.length ∧
    (ts.foldl (fun w t => w.write t (pathfn t)) w2).fileContents.map Feature.tile_id =
      (ts.foldl (fun w t => w.write t (pathfn t)) w).fileContents.map Feature.tile_id := by
  rw [openW_gpkg, openValid_of_file fs out_path fname "GPKG" pre hfile] at hopen
  injection Except.ok.inj hopen with hw hfs1
  subst hw
  subst hfs1
  have hkeys := dictKeys_buildDict_of_nodup pre hpre
  have hfc := dictValues_buildDict_of_nodup pre hpre
  have hfresh : ∀ t ∈ ts,
      VectorFileWriter.entry_exists
        { path := out_path
          driver := "GPKG"
          existing := buildDict pre
          new_entries := 0
          fieldname := fname
          schema := { spatial_schema with
            properties := strDictInsert spatial_schema.properties fname "str:254" }
          fileContents := dictValues (buildDict pre) } t = false := by
    intro t ht
    rw [Bool.eq_false_iff]
    intro htr
    exact hdisj t ht (hkeys ▸ (entry_exists_iff _ t).mp htr)
  have h1 := foldl_write_fresh pathfn ts _ hfresh
  have c1 : (ts.foldl (fun (w : VectorFileWriter) t => w.write t (pathfn t))
      { path := out_path
        driver := "GPKG"
        existing := buildDict pre
        new_entries := 0
        fieldname := fname
        schema := { spatial_schema with
          properties := strDictInsert spatial_schema.properties fname "str:254" }
        fileContents := dictValues (buildDict pre) }).fileContents =
      pre ++ ts.map (fun t => VectorFileWriter.newRecord fname t (pathfn t)) := by
    rw [h1]
    simp only [hfc]
  refine ⟨c1, by rw [c1]; simp, ?_, ?_⟩
  all_goals {
    have hpath : (ts.foldl (fun (w : VectorFileWriter) t => w.write t (pathfn t))
        { path := out_path
          driver := "GPKG"
          existing := buildDict pre
          new_entries := 0
          fieldname := fname
          schema := { spatial_schema with
            properties := strDictInsert spatial_schema.properties fname "str:254" }
          fileContents := dictValues (buildDict pre) }).path = out_path := by
      rw [h1]
    have hlk : fsLookup
        ((ts.foldl (fun (w : VectorFileWriter) t => w.write t (pathfn t))
          { path := out_path
            driver := "GPKG"
            existing := buildDict pre
            new_entries := 0
            fieldname := fname
            schema := { spatial_schema with
              properties := strDictInsert spatial_schema.properties fname "str:254" }
            fileContents := dictValues (buildDict pre) }).close
          (fsWrite (fsRemove fs out_path) out_path (dictValues (buildDict pre))))
        out_path =
        some (pre ++ ts.map (fun t => VectorFileWriter.newRecord fname t (pathfn t))) := by
      unfold VectorFileWriter.close
      rw [hpath, c1]
      exact fsLookup_fsWrite _ out_path _
    rw [openW_gpkg, openValid_of_file _ _ _ _ _ hlk] at hopen2
    injection Except.ok.inj hopen2 with hw2 hfs3
    subst hw2
    have hCids : ((pre ++ ts.map (fun t => VectorFileWriter.newRecord fname t (pathfn t))).map
        Feature.tile_id) = pre.map Feature.tile_id ++ ts.map Tile.id := by
      rw [List.map_append, List.map_map]
      rfl
    have hCnodup : ((pre ++ ts.map (fun t => VectorFileWriter.newRecord fname t (pathfn t))).map
        Feature.tile_id).Nodup := by
      rw [hCids]
      refine List.Nodup.append hpre hts ?_
      intro a ha hb
      obtain ⟨t, ht, rfl⟩ := List.mem_map.mp hb
      exact hdisj t ht ha
    have hkeys2 := dictKeys_buildDict_of_nodup _ hCnodup
    have hfc2 := dictValues_buildDict_of_nodup _ hCnodup
    have hall : ∀ t ∈ ts,
        VectorFileWriter.entry_exists
          { path := out_path
            driver := "GPKG"
            existing := buildDict
              (pre ++ ts.map (fun t => VectorFileWriter.newRecord fname t (pathfn t)))
            new_entries := 0
            fieldname := fname
            schema := { spatial_schema with
              properties := strDictInsert spatial_schema.properties fname "str:254" }
            fileContents := dictValues (buildDict
              (pre ++ ts.map (fun t => VectorFileWriter.newRecord fname t (pathfn t)))) }
          t = true := by
      intro t ht
      rw [entry_exists_iff]
      rw [hkeys2, hCids]
      refine List.mem_append.mpr (Or.inr ?_)
      exact List.mem_map.mpr ⟨t, ht, rfl⟩
    rw [foldl_write_noop pathfn ts _ hall]
    simp only [hfc2, c1]
  }

/-- Filesystem holding a one-record pre-existing GPKG artifact. -/
def fsGpkg : FS := [("out/5.gpkg", [featA])]

/-- Path function used in the concrete merge scenario. -/
def pathNew : Tile → String := fun t => "new/" ++ t.id

/-- First-run writer of the concrete merge scenario. -/
def wGpkg : VectorFileWriter :=
  (VectorFileWriter.openValid fsGpkg "out/5.gpkg" "location" "GPKG").1

/-- Filesystem right after the first-run open. -/
def fsGpkg1 : FS :=
  (VectorFileWriter.openValid fsGpkg "out/5.gpkg" "location" "GPKG").2

/-- First-run writer after writing the one new tile. -/
def wGpkg1 : VectorFileWriter :=
  [tileB].foldl (fun w t => w.write t (pathNew t)) wGpkg

/-- Second-run writer, opened over the closed first-run artifact. -/
def wGpkg2 : VectorFileWriter :=
  (VectorFileWriter.openValid (wGpkg1.close fsGpkg1) "out/5.gpkg" "location" "GPKG").1

/-- Filesystem right after the second-run open. -/
def fsGpkg3 : FS :=
  (VectorFileWriter.openValid (wGpkg1.close fsGpkg1) "out/5.gpkg" "location" "GPKG").2

/-- C4, witness: N = 1 pre-existing record, M = 1 new tile — the first run
ends with the old record plus the new one (2 = 1 + 1 entries), and the second
run over the unchanged artifact has the same count and tile_ids. -/
theorem C4_merge_idempotence_witness :
    ([tileB].foldl (fun w t => w.write t (pathNew t)) wGpkg).fileContents =
      [featA] ++ [tileB].map (fun t => VectorFileWriter.newRecord "location" t (pathNew t)) ∧
    ([tileB].foldl (fun w t => w.write t (pathNew t)) wGpkg).fileContents.length =
      [featA].length + [tileB].length ∧
    ([tileB].foldl (fun w t => w.write t (pathNew t)) wGpkg2).fileContents.length =
      ([tileB].foldl (fun w t => w.write t (pathNew t)) wGpkg).fileContents.length ∧
    ([tileB].foldl (fun w t => w.write t (pathNew t)) wGpkg2).fileContents.map Feature.tile_id =
      ([tileB].foldl (fun w t => w.write t (pathNew t)) wGpkg).fileContents.map Feature.tile_id :=
  C4_merge_idempotence fsGpkg "out/5.gpkg" "location" [featA] [tileB] pathNew
    wGpkg wGpkg2 fsGpkg1 fsGpkg3 rfl (by decide) (by decide) (by decide) rfl rfl

/-- C5: a non-duplicate `write` appends exactly one record whose geometry is
the mapping of the tile bounding polygon (already in the writer CRS: the
orchestrator opens writers with the pyramid CRS, so no reprojection applies),
whose `tile_id` is the tile identifier string, whose zoom/row/col are
stringified, and whose configured field carries the given path — while the
schema declares zoom/row/col as integers. -/
theorem C5_write_record (w : VectorFileWriter) (t : Tile) (p : String)
    (h : w.entry_exists t = false) :
    (w.write t p).fileContents =
      w.fileContents ++
        [{ geometry := mapping t.bbox
           tile_id := t.id
           zoom := toString t.zoom
           row := toString t.row
           col := toString t.col
           locationField := (w.fieldname, p) }] ∧
    (w.write t p).new_entries = w.new_entries + 1 ∧
    spatial_schema.properties.lookup "zoom" = some "int" ∧
    spatial_schema.properties.lookup "row" = some "int" ∧
    spatial_schema.properties.lookup "col" = some "int" ∧
    spatial_schema.properties.lookup "tile_id" = some "str:254" := by
  rw [write_of_not_entry_exists w t p h]
  refine ⟨rfl, rfl, by decide, by decide, by decide, by decide⟩

/-- C5, witness: the record appended for `tileA` on the fresh writer. -/
theorem C5_write_record_witness :
    (wEmpty.write tileA "p/5/3/7.tif").fileContents =
      wEmpty.fileContents ++
        [{ geometry := mapping tileA.bbox
           tile_id := tileA.id
           zoom := toString tileA.zoom
           row := toString tileA.row
           col := toString tileA.col
           locationField := (wEmpty.fieldname, "p/5/3/7.tif") }] :=
  (C5_write_record wEmpty tileA "p/5/3/7.tif" (by decide)).1

/-- C7: with none of geojson, gpkg and vrt requested (txt may be set), the
generator body fails with the ValueError before any writer is opened; the
filesystem component of the result is untouched. -/
theorem C7_no_format_error (args : GenArgs) (fs : FS)
    (hg : args.geojson = false) (hp : args.gpkg = false) (hv : args.vrt = false) :
    genOpenWriters args fs =
      (.error (.valueError "one of geojson, gpkg or vrt must be provided"), fs) :=
  genOpenWriters_no_format args fs hg hp hv

/-- Mapchete config slice with no tiles, used for concrete generator runs. -/
def mpEmpty : MpConfig := ⟨[], fun _ => false, fun _ => ""⟩

/-- Arguments with only the inert txt flag set. -/
def argsNoFormat : GenArgs :=
  ⟨mpEmpty, "out", 5, false, false, true, false, "location", none, true⟩

/-- Arguments requesting vrt alongside the valid geojson format. -/
def argsVrt : GenArgs :=
  ⟨mpEmpty, "out", 5, true, false, false, true, "location", none, true⟩

/-- C7, witness: the concrete no-format invocation on an empty filesystem. -/
theorem C7_no_format_error_witness :
    genOpenWriters argsNoFormat [] =
      (.error (.valueError "one of geojson, gpkg or vrt must be provided"), []) :=
  C7_no_format_error argsNoFormat [] rfl rfl rfl

/-- C8: whenever vrt is requested — here together with any other flags — the
generator body fails with the NotImplementedError before any writer is opened;
the filesystem component of the result is untouched, so no index file for any
requested format is created. -/
theorem C8_vrt_error (args : GenArgs) (fs : FS) (hv : args.vrt = true) :
    genOpenWriters args fs =
      (.error (.notImplementedError "writing VRTs is not yet enabled"), fs) :=
  genOpenWriters_vrt args fs hv

/-- C8, witness: vrt requested alongside geojson on an empty filesystem. -/
theorem C8_vrt_error_witness :
    genOpenWriters argsVrt [] =
      (.error (.notImplementedError "writing VRTs is not yet enabled"), []) :=
  C8_vrt_error argsVrt [] rfl

/-- C10: invoking the generator function only captures the arguments — it
performs no validation, no file access and raises no error, for every
argument record including invalid ones. The configuration error and the
not-implemented error surface in `Generator.start`, the code that runs when
the first item is pulled, which is also the only place writers are opened. -/
theorem C10_generator_lazy (args : GenArgs) (fs : FS) :
    zoom_index_gen args = { args := args } ∧
    (args.geojson = false → args.gpkg = false → args.vrt = false →
      (zoom_index_gen args).start fs =
        (.error (.valueError "one of geojson, gpkg or vrt must be provided"), fs)) ∧
    (args.vrt = true →
      (zoom_index_gen args).start fs =
        (.error (.notImplementedError "writing VRTs is not yet enabled"), fs)) :=
  ⟨rfl,
   fun hg hp hv => genOpenWriters_no_format args fs hg hp hv,
   fun hv => genOpenWriters_vrt args fs hv⟩

/-- C2: whenever the generator body opens its writers, every driven run — to
exhaustion, abandoned after any number of pulls, or aborted by an exception
injected mid-iteration — attempts to close each opened writer exactly once;
failing closes are each caught and counted as logged, do not prevent the
remaining close attempts, and neither the outcome nor the yielded tiles depend
on which closes fail, so an in-flight iteration exception is never replaced or
suppressed by a close failure. -/
theorem C2_cleanup_guarantee (args : GenArgs) (fs : FS) (mode : ConsumerMode)
    (fault : Fault) (cf cf2 : Nat → Bool) (ws : List VectorFileWriter) (fs1 : FS)
    (h : genOpenWriters args fs = (.ok ws, fs1)) :
    (zoom_index_run args fs mode fault cf).closeAttempts =
      List.replicate ws.length 1 ∧
    (zoom_index_run args fs mode fault cf).closeFailuresLogged =
      (List.range ws.length).countP cf ∧
    (zoom_index_run args fs mode fault cf).outcome =
      (zoom_index_run args fs mode fault cf2).outcome ∧
    (zoom_index_run args fs mode fault cf).yielded =
      (zoom_index_run args fs mode fault cf2).yielded := by
  unfold zoom_index_run Generator.start zoom_index_gen
  rw [h]
  refine ⟨?_, ?_, rfl, rfl⟩
  · simp only
    rw [closeAll_attempts, runLoop_writers_length]
  · simp only
    rw [closeAll_logged, runLoop_writers_length]
    apply List.countP_congr
    intro a _
    rw [Nat.zero_add]

/-- Mapchete config slice with two tiles, both with existing output. -/
def mpTwo : MpConfig :=
  ⟨[tileA, tileB], fun _ => true, fun t => "o/" ++ toString t.zoom ++ "/" ++ toString t.row ++ "/" ++ toString t.col ++ ".tif"⟩

/-- Arguments requesting only the GeoJSON index over `mpTwo`. -/
def argsG : GenArgs :=
  ⟨mpTwo, "out", 5, true, false, false, false, "location", none, false⟩

/-- C2, witness: a run over `argsG` abandoned after one pulled tile, with every
close failing, still attempts one close per writer, logs the failure, and has
the same outcome and yielded tiles as the run where no close fails. -/
theorem C2_cleanup_guarantee_witness :
    (zoom_index_run argsG [] (.stopAfter 1) .noFault (fun _ => true)).closeAttempts =
      List.replicate [wEmpty].length 1 ∧
    (zoom_index_run argsG [] (.stopAfter 1) .noFault (fun _ => true)).closeFailuresLogged =
      (List.range [wEmpty].length).countP (fun _ => true) ∧
    (zoom_index_run argsG [] (.stopAfter 1) .noFault (fun _ => true)).outcome =
      (zoom_index_run argsG [] (.stopAfter 1) .noFault (fun _ => false)).outcome ∧
    (zoom_index_run argsG [] (.stopAfter 1) .noFault (fun _ => true)).yielded =
      (zoom_index_run argsG [] (.stopAfter 1) .noFault (fun _ => false)).yielded :=
  C2_cleanup_guarantee argsG [] (.stopAfter 1) .noFault (fun _ => true)
    (fun _ => false) [wEmpty] [("out/5.geojson", [])] rfl

/-- C6: in a fully consumed, fault-free run, every tile of the grid
enumeration is yielded (each exactly once when the enumeration has no
duplicates) regardless of output existence, and the pairs offered to the
writers are exactly the tiles passing the existence check together with their
resolved paths; each opened writer receives exactly those offers, so tiles
without existing output contribute no entry yet still appear in the yielded
sequence. -/
theorem C6_existence_gating (args : GenArgs) (fs : FS)
    (ws : List VectorFileWriter) (fs1 : FS)
    (h : genOpenWriters args fs = (.ok ws, fs1)) :
    (zoom_index_run args fs .full .noFault (fun _ => false)).yielded =
      args.mp.tiles ∧
    (args.mp.tiles.Nodup → ∀ t ∈ args.mp.tiles,
      (zoom_index_run args fs .full .noFault (fun _ => false)).yielded.count t = 1) ∧
    (zoom_index_run args fs .full .noFault (fun _ => false)).offers =
      (args.mp.tiles.filter args.mp.outputExists).map
        (fun t => (t, _tile_path (args.mp.getPath t) args.basepath args.for_gdal)) ∧
    (zoom_index_run args fs .full .noFault (fun _ => false)).finalWriters =
      ws.map (fun w =>
        ((args.mp.tiles.filter args.mp.outputExists).map
          (fun t => (t, _tile_path (args.mp.getPath t) args.basepath args.for_gdal))).foldl
          (fun w pr => w.write pr.1 pr.2) w) := by
  unfold zoom_index_run Generator.start zoom_index_gen
  rw [h]
  have hs := runLoop_full_spec args args.mp.tiles 0 ws
  refine ⟨hs.1, ?_, hs.2.1, hs.2.2.1⟩
  intro hnodup t ht
  simp only [hs.1]
  exact List.count_eq_one_of_mem hnodup ht

/-- Two further concrete tiles for the four-tile scenario. -/
def tileC : Tile := ⟨"(5, 4, 1)", 5, 4, 1, "POLYGON C"⟩

/-- Fourth concrete tile; its output will not exist. -/
def tileD : Tile := ⟨"(5, 4, 2)", 5, 4, 2, "POLYGON D"⟩

/-- Mapchete config slice with four tiles of which three have existing
output. -/
def mpFour : MpConfig :=
  ⟨[tileA, tileB, tileC, tileD], fun t => t.id != "(5, 4, 2)", fun t => "o/" ++ t.id⟩

/-- Arguments requesting only the GeoJSON index over `mpFour`. -/
def argsFour : GenArgs :=
  ⟨mpFour, "out", 5, true, false, false, false, "location", none, false⟩

/-- C6, witness: the four-tile scenario — all four tiles are yielded, `tileA`
exactly once, and only the three existing outputs are offered to the writer. -/
theorem C6_existence_gating_witness :
    (zoom_index_run argsFour [] .full .noFault (fun _ => false)).yielded =
      argsFour.mp.tiles ∧
    (zoom_index_run argsFour [] .full .noFault (fun _ => false)).yielded.count tileA = 1 ∧
    (zoom_index_run argsFour [] .full .noFault (fun _ => false)).offers =
      (argsFour.mp.tiles.filter argsFour.mp.outputExists).map
        (fun t => (t, _tile_path (argsFour.mp.getPath t) argsFour.basepath argsFour.for_gdal)) ∧
    (zoom_index_run argsFour [] .full .noFault (fun _ => false)).finalWriters =
      [wEmpty].map (fun w =>
        ((argsFour.mp.tiles.filter argsFour.mp.outputExists).map
          (fun t => (t, _tile_path (argsFour.mp.getPath t) argsFour.basepath argsFour.for_gdal))).foldl
          (fun w pr => w.write pr.1 pr.2) w) :=
  ⟨(C6_existence_gating argsFour [] [wEmpty] [("out/5.geojson", [])] rfl).1,
   (C6_existence_gating argsFour [] [wEmpty] [("out/5.geojson", [])] rfl).2.1
     (by decide) tileA (by decide),
   (C6_existence_gating argsFour [] [wEmpty] [("out/5.geojson", [])] rfl).2.2.1,
   (C6_existence_gating argsFour [] [wEmpty] [("out/5.geojson", [])] rfl).2.2.2⟩

/-- C9: path resolution is pure and is characterized by: with a base override,
the canonical path is reduced to its trailing three slash-separated segments
and joined onto the override; without one it is kept; the result is prefixed
with the /vsicurl/ marker exactly when GDAL-compatible addressing is requested
and the path is remote, and is returned unchanged otherwise. -/
theorem C9_tile_path_resolution (orig bp : String) (g : Bool)
    (pre : List String) (z r last : String)
    (hsplit : splitSlash orig = pre ++ [z, r, last]) :
    _tile_path orig (some bp) g =
      (if g && path_is_remote (osPathJoin bp (z ++ "/" ++ r ++ "/" ++ last))
       then "/vsicurl/" ++ osPathJoin bp (z ++ "/" ++ r ++ "/" ++ last)
       else osPathJoin bp (z ++ "/" ++ r ++ "/" ++ last)) ∧
    _tile_path orig none g =
      (if g && path_is_remote orig then "/vsicurl/" ++ orig else orig) := by
  constructor
  · unfold _tile_path
    rw [hsplit, pyLastThree_append]
    simp [String.intercalate, String.intercalate.go]
  · rfl

/-- C9, witness: a remote canonical path with a remote base override and
GDAL-compatible addressing requested. -/
theorem C9_tile_path_resolution_witness :
    _tile_path "s3://bucket/out/5/3/7.tif" (some "http://host/alt") true =
      (if true && path_is_remote (osPathJoin "http://host/alt" ("5" ++ "/" ++ "3" ++ "/" ++ "7.tif"))
       then "/vsicurl/" ++ osPathJoin "http://host/alt" ("5" ++ "/" ++ "3" ++ "/" ++ "7.tif")
       else osPathJoin "http://host/alt" ("5" ++ "/" ++ "3" ++ "/" ++ "7.tif")) ∧
    _tile_path "s3://bucket/out/5/3/7.tif" none true =
      (if true && path_is_remote "s3://bucket/out/5/3/7.tif"
       then "/vsicurl/" ++ "s3://bucket/out/5/3/7.tif"
       else "s3://bucket/out/5/3/7.tif") :=
  C9_tile_path_resolution "s3://bucket/out/5/3/7.tif" "http://host/alt" true
    ["s3:", "", "bucket", "out"] "5" "3" "7.tif" (by decide)

/-- C10, witness: concrete invalid invocations are constructed without error,
and their errors appear at the first pull. -/
theorem C10_generator_lazy_witness :
    zoom_index_gen argsNoFormat = { args := argsNoFormat } ∧
    (zoom_index_gen argsNoFormat).start [] =
      (.error (.valueError "one of geojson, gpkg or vrt must be provided"), []) ∧
    (zoom_index_gen argsVrt).start [] =
      (.error (.notImplementedError "writing VRTs is not yet enabled"), []) :=
  ⟨(C10_generator_lazy argsNoFormat []).1,
   (C10_generator_lazy argsNoFormat []).2.1 rfl rfl rfl,
   (C10_generator_lazy argsVrt []).2.2 rfl⟩

end MapcheteIndex
